import Mathlib

/-!
Verification of `hypercorn/asgi/wsproto.py`.

A shallow embedding of the ASGI websocket adapter
(`WebsocketMixin`, `WebsocketBuffer`) from `src/hypercorn/asgi/wsproto.py`,
together with theorems settling the frozen claims about it.

Modelling conventions:
* Python `bytes` values are `List Nat` (one entry per byte).
* Python `str` values are Lean `String` (`len` = number of code points,
  matching Python).
* ASGI messages are Python dicts with dynamically typed values; they are
  embedded as association lists `List (String × PyVal)` over a `PyVal`
  universe of the value shapes the adapter can receive.
* Exceptions become an `Option PyErr` component of each result; effects
  already performed before a raise are kept, as in Python.
* The async layer is sequentialised: the adapter processes outbound
  instructions strictly one at a time (as the source does), so
  `asgi_send` becomes a pure step function and `handle_asgi_app` a pure
  function of the list of instructions the application issues plus its
  own termination outcome (return / raise / cancelled).
-/

namespace Wsproto

/-- The five lifecycle states of `ASGIWebsocketState`
(`HANDSHAKE`, `CONNECTED`, `RESPONSE`, `CLOSED`, `HTTPCLOSED`). -/
inductive ASGIWebsocketState where
  | HANDSHAKE
  | CONNECTED
  | RESPONSE
  | CLOSED
  | HTTPCLOSED
  deriving DecidableEq, Repr

/-- The dynamically-typed Python values that can occur in ASGI message
dicts handled by this adapter. -/
inductive PyVal where
  | vnone
  | vstr (s : String)
  | vbytes (b : List Nat)
  | vint (n : Int)
  | vbool (b : Bool)
  | vlist (hs : List (List Nat × List Nat))
  deriving DecidableEq, Repr

/-- An ASGI message: a Python dict, embedded as an association list. -/
abbrev Msg := List (String × PyVal)

/-- Python errors the adapter's code can raise (beyond its two declared
exception classes, raw runtime errors are possible and are modelled as
distinct variants). -/
inductive PyErr where
  /-- `UnexpectedMessage(state, message_type)`: carries the state and the
  offending message type value. -/
  | unexpectedMessage (state : ASGIWebsocketState) (msgType : PyVal)
  /-- `FrameTooLarge` raised by `WebsocketBuffer.extend`. -/
  | frameTooLarge
  /-- A raw Python `TypeError` (e.g. `None` payload declared as text,
  or `str + bytes`). -/
  | typeError
  /-- A raw Python `KeyError` from subscripting a dict with a missing key. -/
  | keyError (k : String)
  /-- A raw Python `TypeError` from subscripting `None`
  (`'NoneType' object is not subscriptable`). -/
  | noneNotSubscriptable
  deriving DecidableEq, Repr

/-- Python `d[k]`: `KeyError` when the key is absent. -/
def Msg.getItem (m : Msg) (k : String) : Except PyErr PyVal :=
  match m.lookup k with
  | some v => .ok v
  | none => .error (.keyError k)

/-- Python `d.get(k)`: `None` when the key is absent. -/
def Msg.pyGet (m : Msg) (k : String) : PyVal :=
  (m.lookup k).getD .vnone

/-- Python `d.get(k, default)`. -/
def Msg.pyGetD (m : Msg) (k : String) (d : PyVal) : PyVal :=
  (m.lookup k).getD d

/-- Python truthiness of the embedded values. -/
def PyVal.truthy : PyVal → Bool
  | .vnone => false
  | .vstr s => s ≠ ""
  | .vbytes b => b ≠ []
  | .vint n => n ≠ 0
  | .vbool b => b
  | .vlist hs => hs ≠ []

/-- Python `int(v)` on the embedded values (string parsing and other
conversion failures are collapsed to a raised error). -/
def pyInt : PyVal → Except PyErr Int
  | .vint n => .ok n
  | .vbool b => .ok (if b then 1 else 0)
  | _ => .error .typeError

/-- Python `bytes(v)` on the embedded values: identity on bytes,
`bytes(n)` gives `n` zero bytes, everything else raises. -/
def pyBytes : PyVal → Except PyErr (List Nat)
  | .vbytes b => .ok b
  | .vint n => if n < 0 then .error .typeError else .ok (List.replicate n.toNat 0)
  | _ => .error .typeError

/-- ASCII whitespace bytes stripped by Python's `bytes.strip()`. -/
def isPyWs (b : Nat) : Bool :=
  b = 32 || b = 9 || b = 10 || b = 13 || b = 11 || b = 12

/-- Python `bytes.strip()`: drop leading and trailing ASCII whitespace. -/
def pyStrip (b : List Nat) : List Nat :=
  ((b.dropWhile isPyWs).reverse.dropWhile isPyWs).reverse

/-! ## Message buffer (`WebsocketBuffer`) -/

/-- An inbound `wsproto` message fragment: `TextMessage` or `BytesMessage`. -/
inductive Fragment where
  | text (s : String)
  | binary (b : List Nat)
  deriving DecidableEq, Repr

/-- `WebsocketBuffer`: `value` is `None`, a `str`, or a `bytes`;
`max_length` is the configured limit. -/
structure WebsocketBuffer where
  value : Option (String ⊕ List Nat)
  max_length : Nat
  deriving DecidableEq, Repr

/-- Fresh buffer: `WebsocketBuffer(max_length)` starts with `value = None`. -/
def WebsocketBuffer.mk0 (maxLength : Nat) : WebsocketBuffer :=
  ⟨none, maxLength⟩

/-- Length of the buffered content (`len(self.value)`); 0 when empty. -/
def WebsocketBuffer.len (buf : WebsocketBuffer) : Nat :=
  match buf.value with
  | none => 0
  | some (.inl s) => s.length
  | some (.inr b) => b.length

/-- `WebsocketBuffer.extend`: initialise the value to `""`/`b""` by the
fragment's type when empty, append `event.data`, then raise
`FrameTooLarge` when the new length exceeds `max_length`. A type
mismatch on append (`str + bytes`) is a raw Python `TypeError`, raised
before any mutation. As in Python, the over-long content is kept when
`FrameTooLarge` is raised (self.value was already extended). -/
def WebsocketBuffer.extend (buf : WebsocketBuffer) (event : Fragment) :
    WebsocketBuffer × Option PyErr :=
  let v0 : String ⊕ List Nat :=
    match buf.value with
    | none => match event with
      | .text _ => .inl ""
      | .binary _ => .inr []
    | some v => v
  match v0, event with
  | .inl s, .text t =>
      let s' := s ++ t
      (⟨some (.inl s'), buf.max_length⟩,
       if s'.length > buf.max_length then some .frameTooLarge else none)
  | .inr b, .binary d =>
      let b' := b ++ d
      (⟨some (.inr b'), buf.max_length⟩,
       if b'.length > buf.max_length then some .frameTooLarge else none)
  | _, _ => (buf, some .typeError)

/-- `WebsocketBuffer.clear`: reset `value` to `None`. -/
def WebsocketBuffer.clear (buf : WebsocketBuffer) : WebsocketBuffer :=
  ⟨none, buf.max_length⟩

/-- `WebsocketBuffer.to_message`: a `websocket.receive` dict with the
value under `bytes` when it is bytes and under `text` when it is a
string, the other field `None`. -/
def WebsocketBuffer.to_message (buf : WebsocketBuffer) : Msg :=
  [("type", .vstr "websocket.receive"),
   ("bytes", match buf.value with | some (.inr b) => .vbytes b | _ => .vnone),
   ("text", match buf.value with | some (.inl s) => .vstr s | _ => .vnone)]

/-- Repeated `extend` calls, stopping at the first raised error
(as a raising `extend` aborts the caller's loop). -/
def WebsocketBuffer.extendList (buf : WebsocketBuffer) :
    List Fragment → WebsocketBuffer × Option PyErr
  | [] => (buf, none)
  | f :: fs =>
      match buf.extend f with
      | (buf', none) => buf'.extendList fs
      | (buf', some e) => (buf', some e)

/-! ## `urllib.parse.unquote`, `str.partition`, UTF-8 (external stdlib,
modelled here) -/

/-- UTF-8 encoding of one code point (`str.encode()`, per character). -/
def utf8Bytes (c : Char) : List Nat :=
  let n := c.toNat
  if n < 0x80 then [n]
  else if n < 0x800 then [0xC0 + n / 64, 0x80 + n % 64]
  else if n < 0x10000 then
    [0xE0 + n / 4096, 0x80 + (n / 64) % 64, 0x80 + n % 64]
  else
    [0xF0 + n / 0x40000, 0x80 + (n / 4096) % 64, 0x80 + (n / 64) % 64,
     0x80 + n % 64]

/-- Python `s.encode()` (UTF-8). -/
def strBytes (s : String) : List Nat :=
  (s.toList.map utf8Bytes).flatten

/-- Is a byte a UTF-8 continuation byte? -/
def isCont (b : Nat) : Bool := 0x80 ≤ b && b < 0xC0

/-- UTF-8 decoding with `errors='replace'` (U+FFFD for undecodable
bytes), fuelled for termination; fuel = list length suffices. -/
def utf8DecodeAux : Nat → List Nat → List Char
  | 0, _ => []
  | _, [] => []
  | fuel + 1, b0 :: rest =>
    if b0 < 0x80 then Char.ofNat b0 :: utf8DecodeAux fuel rest
    else if 0xC2 ≤ b0 && b0 ≤ 0xDF then
      match rest with
      | b1 :: rest' =>
        if isCont b1 then
          Char.ofNat ((b0 - 0xC0) * 64 + (b1 - 0x80)) :: utf8DecodeAux fuel rest'
        else '�' :: utf8DecodeAux fuel rest
      | [] => ['�']
    else if 0xE0 ≤ b0 && b0 ≤ 0xEF then
      match rest with
      | b1 :: b2 :: rest' =>
        let v := (b0 - 0xE0) * 4096 + (b1 - 0x80) * 64 + (b2 - 0x80)
        if isCont b1 && isCont b2 && 0x800 ≤ v && ¬ (0xD800 ≤ v && v ≤ 0xDFFF) then
          Char.ofNat v :: utf8DecodeAux fuel rest'
        else '�' :: utf8DecodeAux fuel rest
      | _ => ['�']
    else if 0xF0 ≤ b0 && b0 ≤ 0xF4 then
      match rest with
      | b1 :: b2 :: b3 :: rest' =>
        let v := (b0 - 0xF0) * 0x40000 + (b1 - 0x80) * 4096 +
          (b2 - 0x80) * 64 + (b3 - 0x80)
        if isCont b1 && isCont b2 && isCont b3 && 0x10000 ≤ v && v ≤ 0x10FFFF then
          Char.ofNat v :: utf8DecodeAux fuel rest'
        else '�' :: utf8DecodeAux fuel rest
      | _ => ['�']
    else '�' :: utf8DecodeAux fuel rest

/-- Value of a hexadecimal digit character, if it is one (by code
point: digits 48–57, lowercase 97–102, uppercase 65–70). -/
def hexVal (c : Char) : Option Nat :=
  let n := c.toNat
  if 48 ≤ n ∧ n ≤ 57 then some (n - 48)
  else if 97 ≤ n ∧ n ≤ 102 then some (n - 87)
  else if 65 ≤ n ∧ n ≤ 70 then some (n - 55)
  else none

/-- Collect a maximal leading run of valid `%XY` escapes as bytes,
returning the bytes and the unconsumed remainder. -/
def collectPct : List Char → List Nat × List Char
  | '%' :: a :: b :: rest =>
    match hexVal a, hexVal b with
    | some x, some y =>
      let (bs, r) := collectPct rest
      ((16 * x + y) :: bs, r)
    | _, _ => ([], '%' :: a :: b :: rest)
  | l => ([], l)

/-- Worker for `unquote`: literal characters pass through; maximal runs
of valid `%XY` escapes are decoded as UTF-8 with replacement; an invalid
escape leaves its `%` literal. Fuel = input length suffices. -/
def unquoteAux : Nat → List Char → List Char
  | 0, _ => []
  | _, [] => []
  | fuel + 1, '%' :: rest =>
    match collectPct ('%' :: rest) with
    | ([], _) => '%' :: unquoteAux fuel rest
    | (bs, r) => utf8DecodeAux bs.length bs ++ unquoteAux fuel r
  | fuel + 1, c :: rest => c :: unquoteAux fuel rest

/-- `urllib.parse.unquote` (Python stdlib, modelled): percent-decoding,
runs of escaped bytes decoded as UTF-8 with `errors='replace'`. -/
def unquote (s : String) : String :=
  ⟨unquoteAux s.toList.length s.toList⟩

/-- Split at the first occurrence of `sep`, when there is one. -/
def partitionChars : List Char → Char → Option (List Char × List Char)
  | [], _ => none
  | c :: rest, sep =>
    if c = sep then some ([], rest)
    else
      match partitionChars rest sep with
      | some (a, b) => some (c :: a, b)
      | none => none

/-- Python `s.partition(sep)` for a one-character separator: split at
the first occurrence; `(s, "", "")` when absent. -/
def pyPartition (s : String) (sep : Char) : String × String × String :=
  match partitionChars s.toList sep with
  | some (a, b) => (⟨a⟩, ⟨[sep]⟩, ⟨b⟩)
  | none => (s, "", "")

/-! ## Connection context, scope construction (`handle_websocket`) -/

/-- Per-connection constants of the mixin: the abstract `scheme` and
`response_headers()` members, the `client`/`server` endpoints, and the
configuration fields the adapter reads (`root_path`, whether
`config.error_logger` is set). -/
structure Ctx where
  scheme : String
  client : String × Int
  server : String × Int
  root_path : String
  response_headers : List (List Nat × List Nat)
  error_logger : Bool
  deriving DecidableEq, Repr

/-- The `wsproto` `Request` handshake event fields the adapter reads. -/
structure Request where
  target : String
  host : String
  extra_headers : List (List Nat × List Nat)
  subprotocols : List String
  deriving DecidableEq, Repr

/-- The ASGI connection scope dict built by `handle_websocket`
(the static entries `type`/`asgi`/`extensions` carry no data and are
omitted). -/
structure Scope where
  scheme : String
  path : String
  query_string : List Nat
  root_path : String
  headers : List (List Nat × List Nat)
  client : String × Int
  server : String × Int
  subprotocols : List String
  deriving DecidableEq, Repr

/-- Scope construction from `handle_websocket` (lines 102–118):
`path, _, query_string = event.target.partition("?")`, a `host` header
is prepended to `event.extra_headers`, the path is percent-decoded, the
query string is left encoded. -/
def handleWebsocketScope (ctx : Ctx) (event : Request) : Scope :=
  let p := pyPartition event.target '?'
  { scheme := ctx.scheme
    path := unquote p.1
    query_string := strBytes p.2.2
    root_path := ctx.root_path
    headers := (strBytes "host", strBytes event.host) :: event.extra_headers
    client := ctx.client
    server := ctx.server
    subprotocols := event.subprotocols }

/-! ## Outbound instruction processing (`asgi_send`) -/

/-- The `wsproto` outbound events the adapter constructs (extensions are
identified by name, so `PerMessageDeflate()` is the string below). -/
inductive WireEvent where
  | acceptConnection (extensions : List String)
  | rejectConnection (status_code : Int) (headers : List (List Nat × List Nat))
      (has_body : Bool)
  | rejectData (data : List Nat) (body_finished : Bool)
  | bytesMessage (data : List Nat)
  | textMessage (data : String)
  | closeConnection (code : Int)
  deriving DecidableEq, Repr

/-- `CloseReason.ABNORMAL_CLOSURE` from `wsproto.frame_protocol`. -/
def ABNORMAL_CLOSURE : Int := 1006

/-- Mutable per-connection adapter state: the lifecycle `state` and the
stored response-start message `self.response` (`None` until a
`websocket.http.response.start` is processed). -/
structure Conn where
  state : ASGIWebsocketState
  response : Option Msg
  deriving DecidableEq, Repr

/-- Modelled from the spec: the Lifecycle State is initial `Handshake`
and the Pending Response is absent outside a response sequence; the
concrete protocol class that initialises `self.state`/`self.response`
is not under `src/`. -/
def freshConn : Conn := ⟨.HANDSHAKE, none⟩

/-- Result of one `asgi_send` call: the updated connection state, the
wire events passed to `asend`, the access-log records emitted (each the
response-summary dict passed to `access_logger.access`), the messages
passed to `asgi_put`, and the exception raised, if any. Effects emitted
before a raise are kept, as in Python. -/
structure SendResult where
  conn : Conn
  wire : List WireEvent
  logs : List Msg
  puts : List Msg
  err : Option PyErr
  deriving DecidableEq, Repr

/-- `self.response[k]`: subscripting `None` is a raw `TypeError`. -/
def respGet (r : Option Msg) (k : String) : Except PyErr PyVal :=
  match r with
  | none => .error .noneNotSubscriptable
  | some m => m.getItem k

/-- Modelled from the spec: `hypercorn.utils.suppress_body` is not under
`src/`; the spec uses it only as the has-body flag of the rejection
action. Modelled as: a `HEAD` request or an informational/204/304
status carries no body; the numeric comparison on a non-integer status
raises as in Python. -/
def suppress_body (method : String) (status : PyVal) : Except PyErr Bool :=
  if method = "HEAD" then .ok true
  else
    match status with
    | .vint n => .ok (100 ≤ n && n < 200 || n = 204 || n = 304)
    | .vbool _ => .ok false
    | _ => .error .typeError

/-- The `websocket.disconnect` message `_asgi_send_rejection` puts. -/
def disconnectMsg : Msg := [("type", .vstr "websocket.disconnect")]

/-- `send_http_error` (lines 121–125): emit a `RejectConnection` with
the given status and `response_headers()`, and log an access record
`{"status": status, "headers": []}`. -/
def send_http_error (ctx : Ctx) (status : Int) : List WireEvent × List Msg :=
  ([.rejectConnection status ctx.response_headers false],
   [[("status", .vint status), ("headers", .vlist [])]])

/-- `_asgi_send_rejection` (lines 186–213): dereference
`self.response["status"]` for body suppression; while still in
`HANDSHAKE`, emit the `RejectConnection` built from the stored response
(stripped headers plus `response_headers()`) and move to `RESPONSE`;
then emit a `RejectData` chunk unless the body is suppressed; when
`more_body` is falsy, put a disconnect message and move to
`HTTPCLOSED`. -/
def asgiSendRejection (ctx : Ctx) (c : Conn) (message : Msg) : SendResult :=
  match respGet c.response "status" with
  | .error e => ⟨c, [], [], [], some e⟩
  | .ok statusV =>
    match suppress_body "GET" statusV with
    | .error e => ⟨c, [], [], [], some e⟩
    | .ok bodySuppressed =>
      let step1 : Except PyErr (Conn × List WireEvent) :=
        if c.state = .HANDSHAKE then
          match respGet c.response "headers" with
          | .error e => .error e
          | .ok (.vlist hs) =>
            let headers := hs.map (fun kv => (pyStrip kv.1, pyStrip kv.2))
            match pyInt statusV with
            | .error e => .error e
            | .ok statusInt =>
              .ok (⟨.RESPONSE, c.response⟩,
                [.rejectConnection statusInt (headers ++ ctx.response_headers)
                  (! bodySuppressed)])
          | .ok _ => .error .typeError
        else .ok (c, [])
      match step1 with
      | .error e => ⟨c, [], [], [], some e⟩
      | .ok (c1, wire1) =>
        let moreBody := (message.pyGetD "more_body" (.vbool false)).truthy
        let step2 : Except PyErr (List WireEvent) :=
          if bodySuppressed then .ok []
          else
            match pyBytes (message.pyGetD "body" (.vbytes [])) with
            | .error e => .error e
            | .ok data => .ok [.rejectData data (! moreBody)]
        match step2 with
        | .error e => ⟨c1, wire1, [], [], some e⟩
        | .ok wire2 =>
          if moreBody then ⟨c1, wire1 ++ wire2, [], [], none⟩
          else ⟨⟨.HTTPCLOSED, c1.response⟩, wire1 ++ wire2, [],
            [disconnectMsg], none⟩

/-- `asgi_send` (lines 150–184): dispatch on `message["type"]` and
`self.state` exactly as the `if`/`elif` chain does; the final `elif`
for `websocket.close` has no state guard, and the `else` raises
`UnexpectedMessage(self.state, message["type"])`. -/
def asgi_send (ctx : Ctx) (c : Conn) (message : Msg) : SendResult :=
  match message.getItem "type" with
  | .error e => ⟨c, [], [], [], some e⟩
  | .ok t =>
    if t = .vstr "websocket.accept" ∧ c.state = .HANDSHAKE then
      ⟨⟨.CONNECTED, c.response⟩, [.acceptConnection ["permessage-deflate"]],
        [[("status", .vint 101), ("headers", .vlist [])]], [], none⟩
    else if t = .vstr "websocket.http.response.start" ∧ c.state = .HANDSHAKE then
      ⟨⟨.HANDSHAKE, some message⟩, [], [message], [], none⟩
    else if t = .vstr "websocket.http.response.body" ∧
        (c.state = .HANDSHAKE ∨ c.state = .RESPONSE) then
      asgiSendRejection ctx c message
    else if t = .vstr "websocket.send" ∧ c.state = .CONNECTED then
      if message.pyGet "bytes" ≠ .vnone then
        match pyBytes (message.pyGet "bytes") with
        | .ok b => ⟨c, [.bytesMessage b], [], [], none⟩
        | .error e => ⟨c, [], [], [], some e⟩
      else
        match message.getItem "text" with
        | .error e => ⟨c, [], [], [], some e⟩
        | .ok (.vstr s) => ⟨c, [.textMessage s], [], [], none⟩
        | .ok _ => ⟨c, [], [], [], some .typeError⟩
    else if t = .vstr "websocket.close" ∧ c.state = .HANDSHAKE then
      ⟨⟨.HTTPCLOSED, c.response⟩, (send_http_error ctx 403).1,
        (send_http_error ctx 403).2, [], none⟩
    else if t = .vstr "websocket.close" then
      match (message.getItem "code").bind pyInt with
      | .ok n => ⟨⟨.CLOSED, c.response⟩, [.closeConnection n], [], [], none⟩
      | .error e => ⟨c, [], [], [], some e⟩
    else
      ⟨c, [], [], [], some (.unexpectedMessage c.state t)⟩

/-! ## Driving the application (`handle_asgi_app`) -/

/-- How the Application Host's coroutine terminates after issuing its
instructions: a normal return, an uncaught non-cancellation exception,
or `asyncio.CancelledError`. -/
inductive Outcome where
  | ret
  | raiseExc
  | cancelled
  deriving DecidableEq, Repr

/-- Process a list of outbound instructions strictly sequentially,
stopping at the first raised exception (which escapes the application's
`await send(...)` call and is assumed uncaught by the application). -/
def sendAll (ctx : Ctx) (c : Conn) : List Msg → SendResult
  | [] => ⟨c, [], [], [], none⟩
  | m :: ms =>
    let r := asgi_send ctx c m
    match r.err with
    | some _ => r
    | none =>
      let r' := sendAll ctx r.conn ms
      ⟨r'.conn, r.wire ++ r'.wire, r.logs ++ r'.logs, r.puts ++ r'.puts, r'.err⟩

/-- The `websocket.connect` message `handle_asgi_app` puts on entry. -/
def connectMsg : Msg := [("type", .vstr "websocket.connect")]

/-- Result of a full `handle_asgi_app` run: final connection state,
all wire events, access-log records, inbound puts, and whether
`error_logger.exception` was called. -/
structure RunResult where
  conn : Conn
  wire : List WireEvent
  logs : List Msg
  puts : List Msg
  errorLogged : Bool
  deriving DecidableEq, Repr

/-- `handle_asgi_app` (lines 127–148): put `websocket.connect`, run the
application (here: its instruction list and termination outcome); a
`CancelledError` is swallowed; any other exception (the application's
own, or one raised out of `asgi_send`) is logged when an error logger
is configured and, if the state is `CONNECTED`, forces an
abnormal-closure close and `CLOSED`; finally, if the state is still
`HANDSHAKE`, a 500 error response is sent and the state becomes
`HTTPCLOSED`. -/
def handle_asgi_app (ctx : Ctx) (c0 : Conn) (msgs : List Msg)
    (outcome : Outcome) : RunResult :=
  let s := sendAll ctx c0 msgs
  let raised : Bool := s.err.isSome || outcome = .raiseExc
  let errorLogged := raised && ctx.error_logger
  let step :=
    if raised ∧ s.conn.state = .CONNECTED then
      (Conn.mk .CLOSED s.conn.response, [WireEvent.closeConnection ABNORMAL_CLOSURE])
    else (s.conn, [])
  if step.1.state = .HANDSHAKE then
    ⟨⟨.HTTPCLOSED, step.1.response⟩,
      s.wire ++ step.2 ++ (send_http_error ctx 500).1,
      s.logs ++ (send_http_error ctx 500).2,
      connectMsg :: s.puts, errorLogged⟩
  else
    ⟨step.1, s.wire ++ step.2, s.logs, connectMsg :: s.puts, errorLogged⟩

/-! ## Spec-side characterisations and concrete inputs -/

/-- Spec-side reading (§4.2): the part of the target before the first
`'?'`, characterised independently of `str.partition`. -/
def beforeFirst (s : String) (sep : Char) : String :=
  ⟨s.toList.takeWhile (fun c => c ≠ sep)⟩

/-- Spec-side reading (§4.2): the part of the target after the first
`'?'` (empty when there is none), characterised independently of
`str.partition`. -/
def afterFirst (s : String) (sep : Char) : String :=
  ⟨(s.toList.dropWhile (fun c => c ≠ sep)).drop 1⟩

/-- The state order the code actually follows (the spec's partial order
`Handshake → {Connected → Closed} | {HttpResponse → HttpClosed}`,
extended by the unguarded `websocket.close` branch, which can move any
state to `CLOSED`): reflexivity, anything from `HANDSHAKE`, anything to
`CLOSED`, and `RESPONSE → HTTPCLOSED`. -/
def reachOk : ASGIWebsocketState → ASGIWebsocketState → Bool
  | s, t =>
    s = t || s = .HANDSHAKE || t = .CLOSED ||
      (s = .RESPONSE && t = .HTTPCLOSED)

/-- A concrete connection context for witnesses and counterexamples. -/
def ctx0 : Ctx := ⟨"ws", ("client", 1), ("server", 2), "", [], true⟩

/-- `{"type": "websocket.accept"}`. -/
def acceptMsg : Msg := [("type", .vstr "websocket.accept")]

/-- A `websocket.http.response.start` message with status 200. -/
def startMsg200 : Msg :=
  [("type", .vstr "websocket.http.response.start"), ("status", .vint 200),
   ("headers", .vlist [])]

/-- `{"type": "websocket.close", "code": 1000}`. -/
def close1000 : Msg :=
  [("type", .vstr "websocket.close"), ("code", .vint 1000)]

/-- A `websocket.send` message carrying both a non-null `bytes` field
and a `text` field. -/
def sendBothMsg : Msg :=
  [("type", .vstr "websocket.send"), ("bytes", .vbytes [1, 2]),
   ("text", .vstr "hi")]

/-- A `websocket.send` message with `bytes` and `text` both `None`. -/
def sendNullMsg : Msg :=
  [("type", .vstr "websocket.send"), ("bytes", .vnone), ("text", .vnone)]

/-- A `websocket.send` message with `bytes` `None` and a non-string
`text` value. -/
def sendIntTextMsg : Msg :=
  [("type", .vstr "websocket.send"), ("bytes", .vnone), ("text", .vint 7)]

/-- A final `websocket.http.response.body` message (no body, no
`more_body`). -/
def bodyFinalMsg : Msg := [("type", .vstr "websocket.http.response.body")]

/-- The handshake `Request` of Scenario A. -/
def chatRequest : Request := ⟨"/chat?x=1", "example.com", [], []⟩

/-! ## Theorems -/

theorem reachOk_refl (s : ASGIWebsocketState) : reachOk s s = true := by
  cases s <;> rfl

theorem reachOk_trans {s t u : ASGIWebsocketState} (h1 : reachOk s t = true)
    (h2 : reachOk t u = true) : reachOk s u = true := by
  cases s <;> cases t <;> cases u <;> revert h1 h2 <;> decide

theorem reachOk_handshake (t : ASGIWebsocketState) :
    reachOk .HANDSHAKE t = true := by
  cases t <;> rfl

theorem reachOk_closed (s : ASGIWebsocketState) : reachOk s .CLOSED = true := by
  cases s <;> rfl

theorem reachOk_to_handshake {s : ASGIWebsocketState}
    (h : reachOk s .HANDSHAKE = true) : s = .HANDSHAKE := by
  cases s <;> revert h <;> decide

/-- Shape of `_asgi_send_rejection`: the stored response is preserved,
no access-log record is emitted, and the state is unchanged, promoted
`HANDSHAKE → RESPONSE`, or finished in `HTTPCLOSED`. -/
theorem rejection_shape (ctx : Ctx) (c : Conn) (m : Msg) :
    (asgiSendRejection ctx c m).conn.response = c.response ∧
    (asgiSendRejection ctx c m).logs = [] ∧
    ((asgiSendRejection ctx c m).conn.state = c.state ∨
      (c.state = .HANDSHAKE ∧ (asgiSendRejection ctx c m).conn.state = .RESPONSE) ∨
      (asgiSendRejection ctx c m).conn.state = .HTTPCLOSED) := by
  rw [asgiSendRejection]
  repeat' split
  all_goals try (cases hmb : (m.pyGetD "more_body" (PyVal.vbool false)).truthy)
  all_goals simp_all

/-- Every single `asgi_send` step follows the `reachOk` order. -/
theorem asgi_send_reach (ctx : Ctx) (c : Conn) (m : Msg) :
    reachOk c.state (asgi_send ctx c m).conn.state = true := by
  rw [asgi_send]
  rcases ht : m.getItem "type" with e | t <;> simp only [ht]
  · exact reachOk_refl _
  by_cases h1 : t = .vstr "websocket.accept" ∧ c.state = .HANDSHAKE
  · simp only [if_pos h1]
    rw [h1.2]
    exact reachOk_handshake _
  simp only [if_neg h1]
  by_cases h2 : t = .vstr "websocket.http.response.start" ∧
      c.state = .HANDSHAKE
  · simp only [if_pos h2]
    rw [h2.2]
    exact reachOk_handshake _
  simp only [if_neg h2]
  by_cases h3 : t = .vstr "websocket.http.response.body" ∧
      (c.state = .HANDSHAKE ∨ c.state = .RESPONSE)
  · simp only [if_pos h3]
    rcases (rejection_shape ctx c m).2.2 with hst | ⟨hH, hst⟩ | hst
    · rw [hst]; exact reachOk_refl _
    · rw [hst, hH]; exact reachOk_handshake _
    · rw [hst]
      rcases h3.2 with h | h <;> rw [h] <;> rfl
  simp only [if_neg h3]
  by_cases h4 : t = .vstr "websocket.send" ∧ c.state = .CONNECTED
  · simp only [if_pos h4]
    split
    · split <;> exact reachOk_refl _
    · split <;> exact reachOk_refl _
  simp only [if_neg h4]
  by_cases h5 : t = .vstr "websocket.close" ∧ c.state = .HANDSHAKE
  · simp only [if_pos h5]
    rw [h5.2]
    exact reachOk_handshake _
  simp only [if_neg h5]
  by_cases h6 : t = .vstr "websocket.close"
  · simp only [if_pos h6]
    split
    · exact reachOk_closed _
    · exact reachOk_refl _
  · simp only [if_neg h6]
    exact reachOk_refl _

/-- In `CLOSED` or `HTTPCLOSED`, an `asgi_send` step either has no
effect at all (a raised violation) or is the unguarded close branch:
one close frame and state `CLOSED`. -/
theorem asgi_send_terminal (ctx : Ctx) (c : Conn) (m : Msg)
    (h : c.state = .CLOSED ∨ c.state = .HTTPCLOSED) :
    ((asgi_send ctx c m).conn = c ∧ (asgi_send ctx c m).wire = [] ∧
      (asgi_send ctx c m).logs = [] ∧ (asgi_send ctx c m).puts = []) ∨
    (∃ n, asgi_send ctx c m =
      ⟨⟨.CLOSED, c.response⟩, [.closeConnection n], [], [], none⟩) := by
  rw [asgi_send]
  rcases ht : m.getItem "type" with e | t <;> simp only [ht]
  · exact .inl (by simp)
  have h1 : ¬ (t = .vstr "websocket.accept" ∧ c.state = .HANDSHAKE) := by
    rcases h with h | h <;> simp [h]
  have h2 : ¬ (t = .vstr "websocket.http.response.start" ∧
      c.state = .HANDSHAKE) := by
    rcases h with h | h <;> simp [h]
  have h3 : ¬ (t = .vstr "websocket.http.response.body" ∧
      (c.state = .HANDSHAKE ∨ c.state = .RESPONSE)) := by
    rcases h with h | h <;> simp [h]
  have h4 : ¬ (t = .vstr "websocket.send" ∧ c.state = .CONNECTED) := by
    rcases h with h | h <;> simp [h]
  have h5 : ¬ (t = .vstr "websocket.close" ∧ c.state = .HANDSHAKE) := by
    rcases h with h | h <;> simp [h]
  simp only [if_neg h1, if_neg h2, if_neg h3, if_neg h4, if_neg h5]
  by_cases h6 : t = .vstr "websocket.close"
  · simp only [if_pos h6]
    rcases hc : (m.getItem "code").bind pyInt with e | n <;> simp only [hc]
    · exact .inl (by simp)
    · exact .inr ⟨n, rfl⟩
  · simp only [if_neg h6]
    exact .inl (by simp)

/-- `sendAll` composes `reachOk` steps. -/
theorem sendAll_reach (ctx : Ctx) (msgs : List Msg) : ∀ c : Conn,
    reachOk c.state (sendAll ctx c msgs).conn.state = true := by
  induction msgs with
  | nil => exact fun c => reachOk_refl _
  | cons m ms ih =>
    intro c
    rw [sendAll]
    rcases he : (asgi_send ctx c m).err with _ | e <;> simp only [he]
    · exact reachOk_trans (asgi_send_reach ctx c m)
        (ih (asgi_send ctx c m).conn)
    · exact asgi_send_reach ctx c m

/-- A full `handle_asgi_app` run follows the `reachOk` order. -/
theorem handle_asgi_app_reach (ctx : Ctx) (c0 : Conn) (msgs : List Msg)
    (outcome : Outcome) :
    reachOk c0.state (handle_asgi_app ctx c0 msgs outcome).conn.state = true := by
  rw [handle_asgi_app]
  split
  · rw [if_neg (show ¬ ((Conn.mk .CLOSED (sendAll ctx c0 msgs).conn.response,
        [WireEvent.closeConnection ABNORMAL_CLOSURE]).1.state = .HANDSHAKE)
      from by simp)]
    exact reachOk_closed _
  · by_cases hh : ((sendAll ctx c0 msgs).conn,
        ([] : List WireEvent)).1.state = .HANDSHAKE
    · rw [if_pos hh]
      have h0 := sendAll_reach ctx msgs c0
      have hsteq : (sendAll ctx c0 msgs).conn.state = .HANDSHAKE := hh
      rw [hsteq] at h0
      rw [reachOk_to_handshake h0]
      exact reachOk_handshake _
    · rw [if_neg hh]
      exact sendAll_reach ctx msgs c0

/-- A full `handle_asgi_app` run never ends in `HANDSHAKE` (the
forced-500 path moves it to `HTTPCLOSED`). -/
theorem handle_asgi_app_not_handshake (ctx : Ctx) (c0 : Conn)
    (msgs : List Msg) (outcome : Outcome) :
    (handle_asgi_app ctx c0 msgs outcome).conn.state ≠ .HANDSHAKE := by
  rw [handle_asgi_app]
  split
  · simp
  · by_cases hh : ((sendAll ctx c0 msgs).conn,
        ([] : List WireEvent)).1.state = .HANDSHAKE
    · rw [if_pos hh]
      simp
    · rw [if_neg hh]
      exact hh

/-- Errors from a dict subscript are `KeyError`s naming the key. -/
theorem getItem_error {m : Msg} {k : String} {e : PyErr}
    (h : m.getItem k = .error e) : e = .keyError k := by
  rw [Msg.getItem] at h
  rcases hl : m.lookup k with _ | v <;> rw [hl] at h
  · cases h; rfl
  · cases h

/-- In state `CONNECTED` with a `websocket.send` message, `asgi_send`
runs exactly the send branch (lines 169–176). -/
theorem asgi_send_send_branch (ctx : Ctx) (c : Conn) (m : Msg)
    (hst : c.state = .CONNECTED)
    (hm : m.getItem "type" = .ok (.vstr "websocket.send")) :
    asgi_send ctx c m =
      (if m.pyGet "bytes" ≠ .vnone then
        match pyBytes (m.pyGet "bytes") with
        | .ok b => ⟨c, [.bytesMessage b], [], [], none⟩
        | .error e => ⟨c, [], [], [], some e⟩
      else
        match m.getItem "text" with
        | .error e => ⟨c, [], [], [], some e⟩
        | .ok (.vstr s) => ⟨c, [.textMessage s], [], [], none⟩
        | .ok _ => ⟨c, [], [], [], some .typeError⟩) := by
  rw [asgi_send, hm]
  simp only [if_neg (fun h => absurd h.1 (by decide) :
      ¬ (PyVal.vstr "websocket.send" = .vstr "websocket.accept" ∧
        c.state = .HANDSHAKE)),
    if_neg (fun h => absurd h.1 (by decide) :
      ¬ (PyVal.vstr "websocket.send" = .vstr "websocket.http.response.start" ∧
        c.state = .HANDSHAKE)),
    if_neg (fun h => absurd h.1 (by decide) :
      ¬ (PyVal.vstr "websocket.send" = .vstr "websocket.http.response.body" ∧
        (c.state = .HANDSHAKE ∨ c.state = .RESPONSE))),
    if_pos (⟨rfl, hst⟩ :
      PyVal.vstr "websocket.send" = .vstr "websocket.send" ∧
        c.state = .CONNECTED)]
  simp [hst]

/-- C6 --: a `websocket.send` in state `CONNECTED` with a non-null
`bytes` value emits exactly one binary data frame carrying the
identical bytes; with `bytes` null and a present `text` field holding a
non-string value it raises a `TypeError` before any wire action; in
both cases the state stays `CONNECTED` (the connection is returned
unchanged). -/
theorem send_roundtrip_and_text_type (ctx : Ctx) (c : Conn) (m : Msg)
    (hst : c.state = .CONNECTED)
    (hm : m.getItem "type" = .ok (.vstr "websocket.send")) :
    (∀ b : List Nat, m.pyGet "bytes" = .vbytes b →
      asgi_send ctx c m = ⟨c, [.bytesMessage b], [], [], none⟩) ∧
    (∀ v : PyVal, m.pyGet "bytes" = .vnone → m.getItem "text" = .ok v →
      (∀ s, v ≠ .vstr s) →
      asgi_send ctx c m = ⟨c, [], [], [], some .typeError⟩) := by
  rw [asgi_send_send_branch ctx c m hst hm]
  constructor
  · intro b hb
    rw [hb]
    simp [pyBytes]
  · intro v hb htext hns
    rw [hb, htext]
    simp only [ne_eq, not_true_eq_false, if_false]

/-- Witness for `send_roundtrip_and_text_type`: a binary payload
`[1, 2]`, and a send whose `text` is the integer 7. -/
theorem send_roundtrip_and_text_type_witness :
    asgi_send ctx0 ⟨.CONNECTED, none⟩
        [("type", .vstr "websocket.send"), ("bytes", .vbytes [1, 2])] =
      ⟨⟨.CONNECTED, none⟩, [.bytesMessage [1, 2]], [], [], none⟩ ∧
    asgi_send ctx0 ⟨.CONNECTED, none⟩ sendIntTextMsg =
      ⟨⟨.CONNECTED, none⟩, [], [], [], some .typeError⟩ :=
  ⟨(send_roundtrip_and_text_type ctx0 ⟨.CONNECTED, none⟩
      [("type", .vstr "websocket.send"), ("bytes", .vbytes [1, 2])] rfl rfl).1
      [1, 2] rfl,
   (send_roundtrip_and_text_type ctx0 ⟨.CONNECTED, none⟩ sendIntTextMsg
      rfl rfl).2 (.vint 7) rfl rfl (fun s h => by cases h)⟩

/-- C9 counterexample --: a `websocket.send` carrying both a non-null
`bytes` field and a `text` field is not rejected: the code emits the
binary frame (`bytes` wins) with no error. -/
theorem send_both_fields_counterexample :
    (asgi_send ctx0 ⟨.CONNECTED, none⟩ sendBothMsg).wire =
      [.bytesMessage [1, 2]] ∧
    (asgi_send ctx0 ⟨.CONNECTED, none⟩ sendBothMsg).err = none :=
  ⟨rfl, rfl⟩

/-- C9 (amended) --: in state `CONNECTED` the `bytes` field takes
precedence: a send with a non-null `bytes` value emits one binary frame
even when a `text` field is also present; a send carrying neither (both
fields null) raises a fatal `TypeError` before any wire action. -/
theorem send_exactly_one_payload (ctx : Ctx) (c : Conn) (m : Msg)
    (hst : c.state = .CONNECTED)
    (hm : m.getItem "type" = .ok (.vstr "websocket.send")) :
    (∀ (b : List Nat) (tv : PyVal), m.pyGet "bytes" = .vbytes b →
      m.getItem "text" = .ok tv →
      asgi_send ctx c m = ⟨c, [.bytesMessage b], [], [], none⟩) ∧
    (m.pyGet "bytes" = .vnone → m.getItem "text" = .ok .vnone →
      asgi_send ctx c m = ⟨c, [], [], [], some .typeError⟩) := by
  rw [asgi_send_send_branch ctx c m hst hm]
  constructor
  · intro b tv hb htext
    rw [hb]
    simp [pyBytes]
  · intro hb htext
    rw [hb, htext]
    simp only [ne_eq, not_true_eq_false, if_false]

/-- Witness for `send_exactly_one_payload`: both fields present, and
both fields null. -/
theorem send_exactly_one_payload_witness :
    asgi_send ctx0 ⟨.CONNECTED, none⟩ sendBothMsg =
      ⟨⟨.CONNECTED, none⟩, [.bytesMessage [1, 2]], [], [], none⟩ ∧
    asgi_send ctx0 ⟨.CONNECTED, none⟩ sendNullMsg =
      ⟨⟨.CONNECTED, none⟩, [], [], [], some .typeError⟩ :=
  ⟨(send_exactly_one_payload ctx0 ⟨.CONNECTED, none⟩ sendBothMsg rfl rfl).1
      [1, 2] (.vstr "hi") rfl rfl,
   (send_exactly_one_payload ctx0 ⟨.CONNECTED, none⟩ sendNullMsg rfl rfl).2
      rfl rfl⟩

/-- `suppress_body` raises only `TypeError`. -/
theorem suppress_body_error {me : String} {s : PyVal} {e : PyErr}
    (h : suppress_body me s = .error e) : e = .typeError := by
  cases s <;> by_cases hme : me = "HEAD" <;> simp_all [suppress_body]

/-- `pyInt` raises only `TypeError`. -/
theorem pyInt_error {v : PyVal} {e : PyErr} (h : pyInt v = .error e) :
    e = .typeError := by
  cases v <;> simp_all [pyInt]

/-- `pyBytes` raises only `TypeError`. -/
theorem pyBytes_error {v : PyVal} {e : PyErr} (h : pyBytes v = .error e) :
    e = .typeError := by
  cases v with
  | vint n =>
    rw [pyBytes] at h
    split at h
    · cases h; rfl
    · cases h
  | vnone => cases h; rfl
  | vstr s => cases h; rfl
  | vbytes b => cases h
  | vbool b => cases h; rfl
  | vlist hs => cases h; rfl

/-- With a stored response present, the rejection path never raises the
`None`-subscript error. -/
theorem rejection_no_none_sub (ctx : Ctx) (c : Conn) (m r : Msg)
    (hr : c.response = some r) :
    (asgiSendRejection ctx c m).err ≠ some .noneNotSubscriptable := by
  rw [asgiSendRejection]
  generalize hs : respGet c.response "status" = sres
  rcases sres with e | sv
  · rw [hr] at hs
    simp [getItem_error (show r.getItem "status" = .error e from hs)]
  dsimp only
  generalize hb : suppress_body "GET" sv = bres
  rcases bres with e | bs
  · simp [suppress_body_error hb]
  by_cases hH : c.state = .HANDSHAKE
  · simp only [if_pos hH]
    generalize hh : respGet c.response "headers" = hres
    rcases hres with e | hv
    · rw [hr] at hh
      simp [getItem_error (show r.getItem "headers" = .error e from hh)]
    cases hv with
    | vnone => simp
    | vstr s => simp
    | vbytes b => simp
    | vint n => simp
    | vbool b => simp
    | vlist hs2 =>
      dsimp only
      generalize hi : pyInt sv = ires
      rcases ires with e | si
      · simp [pyInt_error hi]
      cases bs
      · dsimp only
        generalize hpb : pyBytes (m.pyGetD "body" (.vbytes [])) = pres
        rcases pres with e | data
        · simp [pyBytes_error hpb]
        · cases hmb : (m.pyGetD "more_body" (.vbool false)).truthy <;> simp
      · cases hmb : (m.pyGetD "more_body" (.vbool false)).truthy <;> simp
  · simp only [if_neg hH]
    cases bs
    · generalize hpb : pyBytes (m.pyGetD "body" (.vbytes [])) = pres
      rcases pres with e | data
      · simp [pyBytes_error hpb]
      · cases hmb : (m.pyGetD "more_body" (.vbool false)).truthy <;> simp
    · cases hmb : (m.pyGetD "more_body" (.vbool false)).truthy <;> simp

/-- C10 --: a `websocket.http.response.body` processed in `HANDSHAKE`
with no earlier `websocket.http.response.start` finds `self.response`
equal to `None` and dereferences it unguarded: the result is the raw
`'NoneType' is not subscriptable` `TypeError` — not the adapter's
`UnexpectedMessage` violation — with no wire action, and the state is
unchanged. When a response message is stored, this raw error cannot
occur. -/
theorem response_body_requires_start (ctx : Ctx) (m : Msg)
    (hm : m.getItem "type" = .ok (.vstr "websocket.http.response.body")) :
    asgi_send ctx ⟨.HANDSHAKE, none⟩ m =
      ⟨⟨.HANDSHAKE, none⟩, [], [], [], some .noneNotSubscriptable⟩ ∧
    (∀ s t, (PyErr.noneNotSubscriptable ≠ PyErr.unexpectedMessage s t)) ∧
    (∀ r : Msg, (asgi_send ctx ⟨.HANDSHAKE, some r⟩ m).err ≠
      some .noneNotSubscriptable) := by
  refine ⟨?_, fun s t => by simp, ?_⟩
  · rw [asgi_send, hm]
    simp only [if_neg (fun h => absurd h.1 (by decide) :
        ¬ (PyVal.vstr "websocket.http.response.body" =
          .vstr "websocket.accept" ∧
          (Conn.mk .HANDSHAKE none).state = .HANDSHAKE)),
      if_neg (fun h => absurd h.1 (by decide) :
        ¬ (PyVal.vstr "websocket.http.response.body" =
          .vstr "websocket.http.response.start" ∧
          (Conn.mk .HANDSHAKE none).state = .HANDSHAKE)),
      if_pos (⟨rfl, .inl rfl⟩ :
        PyVal.vstr "websocket.http.response.body" =
          .vstr "websocket.http.response.body" ∧
          ((Conn.mk .HANDSHAKE none).state = .HANDSHAKE ∨
            (Conn.mk .HANDSHAKE none).state = .RESPONSE))]
    rfl
  · intro r
    rw [asgi_send, hm]
    simp only [if_neg (fun h => absurd h.1 (by decide) :
        ¬ (PyVal.vstr "websocket.http.response.body" =
          .vstr "websocket.accept" ∧
          (Conn.mk .HANDSHAKE (some r)).state = .HANDSHAKE)),
      if_neg (fun h => absurd h.1 (by decide) :
        ¬ (PyVal.vstr "websocket.http.response.body" =
          .vstr "websocket.http.response.start" ∧
          (Conn.mk .HANDSHAKE (some r)).state = .HANDSHAKE)),
      if_pos (⟨rfl, .inl rfl⟩ :
        PyVal.vstr "websocket.http.response.body" =
          .vstr "websocket.http.response.body" ∧
          ((Conn.mk .HANDSHAKE (some r)).state = .HANDSHAKE ∨
            (Conn.mk .HANDSHAKE (some r)).state = .RESPONSE))]
    exact rejection_no_none_sub ctx ⟨.HANDSHAKE, some r⟩ m r rfl

/-- Witness for `response_body_requires_start` at the concrete final
body message. -/
theorem response_body_requires_start_witness :
    asgi_send ctx0 ⟨.HANDSHAKE, none⟩ bodyFinalMsg =
      ⟨⟨.HANDSHAKE, none⟩, [], [], [], some .noneNotSubscriptable⟩ ∧
    (asgi_send ctx0 ⟨.HANDSHAKE, some startMsg200⟩ bodyFinalMsg).err ≠
      some .noneNotSubscriptable :=
  ⟨(response_body_requires_start ctx0 bodyFinalMsg rfl).1,
   (response_body_requires_start ctx0 bodyFinalMsg rfl).2.2 startMsg200⟩

/-- C2 counterexample --: with the state `HTTPCLOSED` — terminal in
the spec's order — a `websocket.close` instruction still changes the
state (to `CLOSED`) and emits a wire action, so `HTTPCLOSED` is not
terminal and `CLOSED` is reached from a state other than `CONNECTED`. -/
theorem httpclosed_not_terminal_counterexample :
    (asgi_send ctx0 ⟨.HTTPCLOSED, none⟩ close1000).conn.state = .CLOSED ∧
    (asgi_send ctx0 ⟨.HTTPCLOSED, none⟩ close1000).wire =
      [.closeConnection 1000] :=
  ⟨rfl, rfl⟩

/-- C2 (amended) --: the Lifecycle State moves only along the spec's
partial order extended by the unguarded close branch (`reachOk`: any
state may step to `CLOSED` on a `websocket.close` instruction); no step
re-enters `HANDSHAKE`; in `CLOSED`/`HTTPCLOSED` every instruction other
than a successful close has no effect (state, wire, logs and puts are
untouched), while a close emits one close frame and sets `CLOSED`; and
the same order holds for instruction sequences and whole-connection
runs, which never end in `HANDSHAKE`. -/
theorem lifecycle_monotone (ctx : Ctx) (c c0 : Conn) (m : Msg)
    (msgs : List Msg) (outcome : Outcome) :
    reachOk c.state (asgi_send ctx c m).conn.state = true ∧
    ((asgi_send ctx c m).conn.state = .HANDSHAKE → c.state = .HANDSHAKE) ∧
    ((c.state = .CLOSED ∨ c.state = .HTTPCLOSED) →
      (((asgi_send ctx c m).conn = c ∧ (asgi_send ctx c m).wire = [] ∧
        (asgi_send ctx c m).logs = [] ∧ (asgi_send ctx c m).puts = []) ∨
      (∃ n, asgi_send ctx c m =
        ⟨⟨.CLOSED, c.response⟩, [.closeConnection n], [], [], none⟩))) ∧
    reachOk c0.state (sendAll ctx c0 msgs).conn.state = true ∧
    reachOk c0.state (handle_asgi_app ctx c0 msgs outcome).conn.state = true ∧
    (handle_asgi_app ctx c0 msgs outcome).conn.state ≠ .HANDSHAKE := by
  refine ⟨asgi_send_reach ctx c m, ?_, asgi_send_terminal ctx c m,
    sendAll_reach ctx msgs c0, handle_asgi_app_reach ctx c0 msgs outcome,
    handle_asgi_app_not_handshake ctx c0 msgs outcome⟩
  intro h
  have h0 := asgi_send_reach ctx c m
  rw [h] at h0
  exact reachOk_to_handshake h0

/-- Witness for `lifecycle_monotone` at a concrete terminal-state
input. -/
theorem lifecycle_monotone_witness :
    reachOk .HTTPCLOSED
      (asgi_send ctx0 ⟨.HTTPCLOSED, none⟩ close1000).conn.state = true ∧
    (((asgi_send ctx0 ⟨.HTTPCLOSED, none⟩ close1000).conn =
        (⟨.HTTPCLOSED, none⟩ : Conn) ∧
      (asgi_send ctx0 ⟨.HTTPCLOSED, none⟩ close1000).wire = [] ∧
      (asgi_send ctx0 ⟨.HTTPCLOSED, none⟩ close1000).logs = [] ∧
      (asgi_send ctx0 ⟨.HTTPCLOSED, none⟩ close1000).puts = []) ∨
    (∃ n, asgi_send ctx0 ⟨.HTTPCLOSED, none⟩ close1000 =
      ⟨⟨.CLOSED, none⟩, [.closeConnection n], [], [], none⟩)) :=
  ⟨(lifecycle_monotone ctx0 ⟨.HTTPCLOSED, none⟩ ⟨.HTTPCLOSED, none⟩
      close1000 [] .ret).1,
   (lifecycle_monotone ctx0 ⟨.HTTPCLOSED, none⟩ ⟨.HTTPCLOSED, none⟩
      close1000 [] .ret).2.2.1 (.inr rfl)⟩

/-- C3 --: the `accept` instruction is legal iff the current state is
`Handshake`: processing it in `Handshake` emits an
accept-with-extensions wire action and moves the state to `Connected`
(logging status 101); processing a second `accept` — now in `Connected`
— raises `UnexpectedMessage` without emitting a wire action. -/
theorem accept_legal_iff_handshake (ctx : Ctx) (c : Conn) (m : Msg)
    (hm : m.getItem "type" = .ok (.vstr "websocket.accept")) :
    (c.state = .HANDSHAKE →
      asgi_send ctx c m =
        ⟨⟨.CONNECTED, c.response⟩, [.acceptConnection ["permessage-deflate"]],
          [[("status", .vint 101), ("headers", .vlist [])]], [], none⟩) ∧
    (c.state ≠ .HANDSHAKE →
      asgi_send ctx c m =
        ⟨c, [], [], [],
          some (.unexpectedMessage c.state (.vstr "websocket.accept"))⟩) ∧
    (c.state = .HANDSHAKE →
      asgi_send ctx (asgi_send ctx c m).conn m =
        ⟨⟨.CONNECTED, c.response⟩, [], [], [],
          some (.unexpectedMessage .CONNECTED (.vstr "websocket.accept"))⟩) := by
  obtain ⟨st, resp⟩ := c
  cases st <;> simp +decide [asgi_send, hm]

/-- Witness for `accept_legal_iff_handshake` at the concrete
`acceptMsg` starting from a fresh connection. -/
theorem accept_legal_iff_handshake_witness :
    asgi_send ctx0 freshConn acceptMsg =
      ⟨⟨.CONNECTED, none⟩, [.acceptConnection ["permessage-deflate"]],
        [[("status", .vint 101), ("headers", .vlist [])]], [], none⟩ ∧
    asgi_send ctx0 (asgi_send ctx0 freshConn acceptMsg).conn acceptMsg =
      ⟨⟨.CONNECTED, none⟩, [], [], [],
        some (.unexpectedMessage .CONNECTED (.vstr "websocket.accept"))⟩ :=
  ⟨(accept_legal_iff_handshake ctx0 freshConn acceptMsg rfl).1 rfl,
   (accept_legal_iff_handshake ctx0 freshConn acceptMsg rfl).2.2 rfl⟩

/-- C1 counterexample --: a `websocket.close` instruction while the
state is `CLOSED` — a (kind, state) pair outside the transition table,
and one of the claim's own examples — does not raise a violation and
does emit a wire action: the final `elif` for `websocket.close` in
`asgi_send` has no state guard. -/
theorem close_in_closed_counterexample :
    (asgi_send ctx0 ⟨.CLOSED, none⟩ close1000).err = none ∧
    (asgi_send ctx0 ⟨.CLOSED, none⟩ close1000).wire = [.closeConnection 1000] :=
  ⟨rfl, rfl⟩

/-- C1 (amended) --: for every outbound instruction whose
(kind, state) pair is not a row of the transition table **and whose
kind is not `websocket.close`** (a close is never rejected: any
non-`Handshake` state emits a close wire action and moves to `Closed`),
`asgi_send` raises `UnexpectedMessage` naming both the instruction kind
and the current state, emits no wire action, no log, no inbound put,
and leaves the state and stored response unchanged. -/
theorem unexpected_instruction_violation (ctx : Ctx) (c : Conn) (m : Msg)
    (t : PyVal) (hm : m.getItem "type" = .ok t)
    (hacc : ¬ (t = .vstr "websocket.accept" ∧ c.state = .HANDSHAKE))
    (hstart : ¬ (t = .vstr "websocket.http.response.start" ∧
      c.state = .HANDSHAKE))
    (hbody : ¬ (t = .vstr "websocket.http.response.body" ∧
      (c.state = .HANDSHAKE ∨ c.state = .RESPONSE)))
    (hsend : ¬ (t = .vstr "websocket.send" ∧ c.state = .CONNECTED))
    (hclose : t ≠ .vstr "websocket.close") :
    asgi_send ctx c m = ⟨c, [], [], [], some (.unexpectedMessage c.state t)⟩ := by
  rw [asgi_send, hm]
  simp only [if_neg hacc, if_neg hstart, if_neg hbody, if_neg hsend,
    if_neg hclose,
    if_neg (show ¬ (t = .vstr "websocket.close" ∧ c.state = .HANDSHAKE) from
      fun h => hclose h.1)]

/-- Witness for `unexpected_instruction_violation`: an `accept` in
state `CONNECTED`. -/
theorem unexpected_instruction_violation_witness :
    asgi_send ctx0 ⟨.CONNECTED, none⟩ acceptMsg =
      ⟨⟨.CONNECTED, none⟩, [], [], [],
        some (.unexpectedMessage .CONNECTED (.vstr "websocket.accept"))⟩ :=
  unexpected_instruction_violation ctx0 ⟨.CONNECTED, none⟩ acceptMsg
    (.vstr "websocket.accept") rfl (by decide) (by decide) (by decide)
    (by decide) (by decide)

/-- From a fresh connection, an `asgi_send` step either raises (leaving
the connection untouched) or emits an access-log record. -/
theorem step_from_fresh (ctx : Ctx) (m : Msg) :
    ((asgi_send ctx freshConn m).err.isSome = true ∧
      (asgi_send ctx freshConn m).conn = freshConn) ∨
    (asgi_send ctx freshConn m).logs ≠ [] := by
  rw [asgi_send]
  rcases ht : m.getItem "type" with e | t <;> simp only [ht]
  · exact .inl (by simp)
  by_cases h1 : t = .vstr "websocket.accept"
  · simp only [if_pos (⟨h1, rfl⟩ : t = .vstr "websocket.accept" ∧
      freshConn.state = .HANDSHAKE)]
    exact .inr (by simp)
  simp only [if_neg (show ¬ (t = .vstr "websocket.accept" ∧
    freshConn.state = .HANDSHAKE) from fun h => h1 h.1)]
  by_cases h2 : t = .vstr "websocket.http.response.start"
  · simp only [if_pos (⟨h2, rfl⟩ : t = .vstr "websocket.http.response.start" ∧
      freshConn.state = .HANDSHAKE)]
    exact .inr (by simp)
  simp only [if_neg (show ¬ (t = .vstr "websocket.http.response.start" ∧
    freshConn.state = .HANDSHAKE) from fun h => h2 h.1)]
  by_cases h3 : t = .vstr "websocket.http.response.body"
  · simp only [if_pos (⟨h3, .inl rfl⟩ :
      t = .vstr "websocket.http.response.body" ∧
      (freshConn.state = .HANDSHAKE ∨ freshConn.state = .RESPONSE))]
    exact .inl (by simp [asgiSendRejection, respGet, freshConn])
  simp only [if_neg (show ¬ (t = .vstr "websocket.http.response.body" ∧
    (freshConn.state = .HANDSHAKE ∨ freshConn.state = .RESPONSE)) from
    fun h => h3 h.1)]
  simp only [if_neg (show ¬ (t = .vstr "websocket.send" ∧
    freshConn.state = .CONNECTED) from
    fun h => ASGIWebsocketState.noConfusion h.2)]
  by_cases h5 : t = .vstr "websocket.close"
  · simp only [if_pos (⟨h5, rfl⟩ : t = .vstr "websocket.close" ∧
      freshConn.state = .HANDSHAKE)]
    exact .inr (by simp [send_http_error])
  simp only [if_neg (show ¬ (t = .vstr "websocket.close" ∧
    freshConn.state = .HANDSHAKE) from fun h => h5 h.1), if_neg h5]
  exact .inl (by simp)

/-- If a whole instruction sequence from a fresh connection produced no
access-log record, the connection is still untouched (in `HANDSHAKE`
with no stored response). -/
theorem sendAll_fresh_logs (ctx : Ctx) (msgs : List Msg)
    (hl : (sendAll ctx freshConn msgs).logs = []) :
    (sendAll ctx freshConn msgs).conn = freshConn := by
  cases msgs with
  | nil => rfl
  | cons m ms =>
    rw [sendAll] at hl ⊢
    rcases he : (asgi_send ctx freshConn m).err with _ | e <;>
      simp only [he] at hl ⊢
    · rcases step_from_fresh ctx m with ⟨hsome, _⟩ | hlog
      · rw [he] at hsome
        cases hsome
      · exact absurd (List.append_eq_nil.mp hl).1 hlog
    · rcases step_from_fresh ctx m with ⟨_, hconn⟩ | hlog
      · exact hconn
      · exact absurd hl hlog

/-- C7 counterexample --: an application that issues one
`websocket.http.response.start` and then returns produces two access-log
records — one when the start is staged (still in `Handshake`) and a
second for the forced 500 — not exactly one. -/
theorem double_access_log_counterexample :
    (handle_asgi_app ctx0 freshConn [startMsg200] .ret).logs.length = 2 ∧
    (handle_asgi_app ctx0 freshConn [startMsg200] .ret).logs.length ≠ 1 :=
  ⟨rfl, by decide⟩

/-- C7 (amended) --: once a response disposition is reached the Access
Logger has been invoked at least once — every complete run from a fresh
connection records at least one entry — but not exactly once in
general: a `http.response.start` followed by the application returning
records twice (the staged start and the forced 500), and two
`http.response.start` instructions record once each. -/
theorem access_log_at_least_once (ctx : Ctx) (msgs : List Msg)
    (outcome : Outcome) :
    1 ≤ (handle_asgi_app ctx freshConn msgs outcome).logs.length := by
  rw [handle_asgi_app]
  by_cases hl : (sendAll ctx freshConn msgs).logs = []
  · have hc := sendAll_fresh_logs ctx msgs hl
    have hstate : (sendAll ctx freshConn msgs).conn.state = .HANDSHAKE := by
      rw [hc]
      rfl
    split
    · rename_i h
      rw [hstate] at h
      exact absurd h.2 (by decide)
    · simp [hl, send_http_error, hstate]
  · have hp : 0 < (sendAll ctx freshConn msgs).logs.length :=
      List.length_pos.mpr hl
    split <;> split <;>
      (simp only [send_http_error, List.length_append, List.length_cons,
        List.length_nil]
       omega)

/-- C8 counterexample --: a cancellation while the state is still
`Handshake` does force a wire action — the `except CancelledError: pass`
falls through to the forced-500 path, which emits a rejection and moves
the state to `HTTPCLOSED`. -/
theorem cancellation_forces_500_counterexample :
    (handle_asgi_app ctx0 freshConn [] .cancelled).wire =
      [.rejectConnection 500 [] false] ∧
    (handle_asgi_app ctx0 freshConn [] .cancelled).conn.state =
      .HTTPCLOSED :=
  ⟨rfl, rfl⟩

/-- C8 (amended) --: a non-cancellation application fault is never
propagated (the run always completes; it is logged exactly when an
error logger is configured): if the state is `Connected` at that moment
exactly one abnormal-closure close is appended and the final state is
`Closed`; if the state is still `Handshake` after the application
returns or fails, exactly one 500 rejection is emitted and the state
becomes `HttpClosed`; a cancellation causes no abnormal-closure action
and no error logging — but when the state is still `Handshake` the
forced 500 is emitted all the same. -/
theorem app_fault_handling (ctx : Ctx) (c0 : Conn) (msgs : List Msg)
    (outcome : Outcome) :
    (((sendAll ctx c0 msgs).err.isSome = true ∨ outcome = .raiseExc) →
      (sendAll ctx c0 msgs).conn.state = .CONNECTED →
      handle_asgi_app ctx c0 msgs outcome =
        ⟨⟨.CLOSED, (sendAll ctx c0 msgs).conn.response⟩,
          (sendAll ctx c0 msgs).wire ++ [.closeConnection ABNORMAL_CLOSURE],
          (sendAll ctx c0 msgs).logs,
          connectMsg :: (sendAll ctx c0 msgs).puts, ctx.error_logger⟩) ∧
    ((sendAll ctx c0 msgs).conn.state = .HANDSHAKE →
      handle_asgi_app ctx c0 msgs outcome =
        ⟨⟨.HTTPCLOSED, (sendAll ctx c0 msgs).conn.response⟩,
          (sendAll ctx c0 msgs).wire ++
            [.rejectConnection 500 ctx.response_headers false],
          (sendAll ctx c0 msgs).logs ++
            [[("status", .vint 500), ("headers", .vlist [])]],
          connectMsg :: (sendAll ctx c0 msgs).puts,
          ((sendAll ctx c0 msgs).err.isSome ||
            decide (outcome = .raiseExc)) && ctx.error_logger⟩) ∧
    (outcome = .cancelled → (sendAll ctx c0 msgs).err = none →
      (handle_asgi_app ctx c0 msgs outcome).errorLogged = false ∧
      (handle_asgi_app ctx c0 msgs outcome).wire =
        (sendAll ctx c0 msgs).wire ++
          (if (sendAll ctx c0 msgs).conn.state = .HANDSHAKE then
            [.rejectConnection 500 ctx.response_headers false]
          else [])) := by
  refine ⟨?_, ?_, ?_⟩
  · intro hraise hconn
    have hr : ((sendAll ctx c0 msgs).err.isSome ||
        decide (outcome = .raiseExc)) = true := by
      rcases hraise with h | h <;> simp [h]
    rw [handle_asgi_app]
    split
    · rw [if_neg (show ¬ ((Conn.mk .CLOSED (sendAll ctx c0 msgs).conn.response,
          [WireEvent.closeConnection ABNORMAL_CLOSURE]).1.state = .HANDSHAKE)
        from by simp)]
      simp [hr]
    · rename_i hneg
      exact absurd ⟨hr, hconn⟩ hneg
  · intro hh
    rw [handle_asgi_app]
    split
    · rename_i h
      rw [hh] at h
      exact absurd h.2 (by decide)
    · simp [send_http_error]
  · intro hcan herr
    have hr : ((sendAll ctx c0 msgs).err.isSome ||
        decide (outcome = .raiseExc)) = false := by
      simp [herr, hcan]
    rw [handle_asgi_app]
    split
    · rename_i h
      rw [hr] at h
      exact absurd h.1 (by decide)
    · by_cases hh : (sendAll ctx c0 msgs).conn.state = .HANDSHAKE
      · rw [if_pos (show ((sendAll ctx c0 msgs).conn,
            ([] : List WireEvent)).1.state = .HANDSHAKE from hh)]
        simp [send_http_error, hr, hh]
      · rw [if_neg (show ¬ (((sendAll ctx c0 msgs).conn,
            ([] : List WireEvent)).1.state = .HANDSHAKE) from hh)]
        simp [hr, hh]

/-- Witness for `app_fault_handling`: an application that accepts and
then raises, and a cancelled application that issued nothing. -/
theorem app_fault_handling_witness :
    handle_asgi_app ctx0 freshConn [acceptMsg] .raiseExc =
      ⟨⟨.CLOSED, none⟩,
        (sendAll ctx0 freshConn [acceptMsg]).wire ++
          [.closeConnection ABNORMAL_CLOSURE],
        (sendAll ctx0 freshConn [acceptMsg]).logs,
        connectMsg :: (sendAll ctx0 freshConn [acceptMsg]).puts,
        ctx0.error_logger⟩ ∧
    (handle_asgi_app ctx0 freshConn [] .cancelled).errorLogged = false :=
  ⟨(app_fault_handling ctx0 freshConn [acceptMsg] .raiseExc).1
      (.inr rfl) rfl,
   ((app_fault_handling ctx0 freshConn [] .cancelled).2.2 rfl rfl).1⟩

/-- Accumulating same-typed text fragments within the limit never
raises and keeps `len ≤ max_length`. -/
theorem extendList_text (lim : Nat) : ∀ (ts : List String) (s : String),
    s.length + (ts.map String.length).sum ≤ lim →
    (WebsocketBuffer.extendList ⟨some (.inl s), lim⟩ (ts.map .text)).2 =
      none ∧
    (WebsocketBuffer.extendList ⟨some (.inl s), lim⟩
      (ts.map .text)).1.len ≤ lim := by
  intro ts
  induction ts with
  | nil =>
    intro s h
    refine ⟨rfl, ?_⟩
    simpa [WebsocketBuffer.len] using h
  | cons t rest ih =>
    intro s h
    simp only [List.map_cons, List.sum_cons] at h
    have hlen : (s ++ t).length ≤ lim := by
      rw [String.length_append]
      omega
    have hstep : WebsocketBuffer.extend ⟨some (.inl s), lim⟩ (.text t) =
        (WebsocketBuffer.mk (some (Sum.inl (s ++ t))) lim, none) := by
      show (WebsocketBuffer.mk (some (Sum.inl (s ++ t))) lim,
        if (s ++ t).length > lim then some PyErr.frameTooLarge else none) =
        (WebsocketBuffer.mk (some (Sum.inl (s ++ t))) lim, none)
      rw [if_neg (Nat.not_lt.mpr hlen)]
    rw [List.map_cons, WebsocketBuffer.extendList, hstep]
    exact ih (s ++ t) (by rw [String.length_append]; omega)

/-- Accumulating same-typed binary fragments within the limit never
raises and keeps `len ≤ max_length`. -/
theorem extendList_binary (lim : Nat) :
    ∀ (bs : List (List Nat)) (b : List Nat),
    b.length + (bs.map List.length).sum ≤ lim →
    (WebsocketBuffer.extendList ⟨some (.inr b), lim⟩ (bs.map .binary)).2 =
      none ∧
    (WebsocketBuffer.extendList ⟨some (.inr b), lim⟩
      (bs.map .binary)).1.len ≤ lim := by
  intro bs
  induction bs with
  | nil =>
    intro b h
    refine ⟨rfl, ?_⟩
    simpa [WebsocketBuffer.len] using h
  | cons d rest ih =>
    intro b h
    simp only [List.map_cons, List.sum_cons] at h
    have hlen : (b ++ d).length ≤ lim := by
      rw [List.length_append]
      omega
    have hstep : WebsocketBuffer.extend ⟨some (.inr b), lim⟩ (.binary d) =
        (WebsocketBuffer.mk (some (Sum.inr (b ++ d))) lim, none) := by
      show (WebsocketBuffer.mk (some (Sum.inr (b ++ d))) lim,
        if (b ++ d).length > lim then some PyErr.frameTooLarge else none) =
        (WebsocketBuffer.mk (some (Sum.inr (b ++ d))) lim, none)
      rw [if_neg (Nat.not_lt.mpr hlen)]
    rw [List.map_cons, WebsocketBuffer.extendList, hstep]
    exact ih (b ++ d) (by rw [List.length_append]; omega)

/-- C4 --: same-typed fragments whose accumulated length stays within
`limit` (including exactly equal) all extend successfully with the
invariant `len ≤ limit` after each call (every prefix of the run); the
first extend pushing the accumulated length past `limit` raises
`FrameTooLarge`; and `clear` followed by an extend of the opposite type
succeeds with the new content exactly the new fragment — no bytes or
characters from before the clear. -/
theorem buffer_limit_behavior (limit : Nat) :
    (∀ ts : List String, (ts.map String.length).sum ≤ limit → ∀ n : Nat,
      ((WebsocketBuffer.mk0 limit).extendList ((ts.take n).map .text)).2 =
        none ∧
      ((WebsocketBuffer.mk0 limit).extendList
        ((ts.take n).map .text)).1.len ≤ limit) ∧
    (∀ bs : List (List Nat), (bs.map List.length).sum ≤ limit → ∀ n : Nat,
      ((WebsocketBuffer.mk0 limit).extendList ((bs.take n).map .binary)).2 =
        none ∧
      ((WebsocketBuffer.mk0 limit).extendList
        ((bs.take n).map .binary)).1.len ≤ limit) ∧
    (∀ s t : String, limit < s.length + t.length →
      (WebsocketBuffer.extend ⟨some (.inl s), limit⟩ (.text t)).2 =
        some .frameTooLarge) ∧
    (∀ b d : List Nat, limit < b.length + d.length →
      (WebsocketBuffer.extend ⟨some (.inr b), limit⟩ (.binary d)).2 =
        some .frameTooLarge) ∧
    (∀ (buf : WebsocketBuffer) (d : List Nat), buf.max_length = limit →
      d.length ≤ limit →
      buf.clear.extend (.binary d) = (WebsocketBuffer.mk (some (Sum.inr d)) limit, none)) ∧
    (∀ (buf : WebsocketBuffer) (t : String), buf.max_length = limit →
      t.length ≤ limit →
      buf.clear.extend (.text t) = (WebsocketBuffer.mk (some (Sum.inl t)) limit, none)) := by
  refine ⟨?_, ?_, ?_, ?_, ?_, ?_⟩
  · intro ts hsum n
    have hsplit : ((ts.take n).map String.length).sum +
        ((ts.drop n).map String.length).sum = (ts.map String.length).sum := by
      rw [← List.sum_append, ← List.map_append, List.take_append_drop]
    have hsum2 : ((ts.take n).map String.length).sum ≤ limit := by omega
    cases htn : ts.take n with
    | nil => exact ⟨rfl, by simp [WebsocketBuffer.extendList, WebsocketBuffer.mk0, WebsocketBuffer.len]⟩
    | cons t rest =>
      rw [htn] at hsum2
      simp only [List.map_cons, List.sum_cons] at hsum2
      have hlen : t.length ≤ limit := by omega
      have hstep : (WebsocketBuffer.mk0 limit).extend (.text t) =
          (WebsocketBuffer.mk (some (Sum.inl t)) limit, none) := by
        show (WebsocketBuffer.mk (some (Sum.inl t)) limit,
          if t.length > limit then some PyErr.frameTooLarge else none) =
          (WebsocketBuffer.mk (some (Sum.inl t)) limit, none)
        rw [if_neg (Nat.not_lt.mpr hlen)]
      rw [List.map_cons, WebsocketBuffer.extendList, hstep]
      exact extendList_text limit rest t (by omega)
  · intro bs hsum n
    have hsplit : ((bs.take n).map List.length).sum +
        ((bs.drop n).map List.length).sum = (bs.map List.length).sum := by
      rw [← List.sum_append, ← List.map_append, List.take_append_drop]
    have hsum2 : ((bs.take n).map List.length).sum ≤ limit := by omega
    cases hbn : bs.take n with
    | nil => exact ⟨rfl, by simp [WebsocketBuffer.extendList, WebsocketBuffer.mk0, WebsocketBuffer.len]⟩
    | cons d rest =>
      rw [hbn] at hsum2
      simp only [List.map_cons, List.sum_cons] at hsum2
      have hlen : d.length ≤ limit := by omega
      have hstep : (WebsocketBuffer.mk0 limit).extend (.binary d) =
          (WebsocketBuffer.mk (some (Sum.inr d)) limit, none) := by
        show (WebsocketBuffer.mk (some (Sum.inr d)) limit,
          if d.length > limit then some PyErr.frameTooLarge else none) =
          (WebsocketBuffer.mk (some (Sum.inr d)) limit, none)
        rw [if_neg (Nat.not_lt.mpr hlen)]
      rw [List.map_cons, WebsocketBuffer.extendList, hstep]
      exact extendList_binary limit rest d (by omega)
  · intro s t hover
    show (if (s ++ t).length > limit then some PyErr.frameTooLarge
      else none) = some PyErr.frameTooLarge
    rw [if_pos (show limit < (s ++ t).length by
      rw [String.length_append]; exact hover)]
  · intro b d hover
    show (if (b ++ d).length > limit then some PyErr.frameTooLarge
      else none) = some PyErr.frameTooLarge
    rw [if_pos (show limit < (b ++ d).length by
      rw [List.length_append]; exact hover)]
  · intro buf d hmax hlen
    subst hmax
    show (WebsocketBuffer.mk (some (Sum.inr d)) buf.max_length,
      if d.length > buf.max_length then some PyErr.frameTooLarge
      else none) = (WebsocketBuffer.mk (some (Sum.inr d)) buf.max_length, none)
    rw [if_neg (Nat.not_lt.mpr hlen)]
  · intro buf t hmax hlen
    subst hmax
    show (WebsocketBuffer.mk (some (Sum.inl t)) buf.max_length,
      if t.length > buf.max_length then some PyErr.frameTooLarge
      else none) = (WebsocketBuffer.mk (some (Sum.inl t)) buf.max_length, none)
    rw [if_neg (Nat.not_lt.mpr hlen)]

/-- Witness for `buffer_limit_behavior` with limit 3: fragments
`"ab"`, `"c"` fill the buffer exactly; a fourth character overflows;
clear-then-binary-to-text carries nothing over. -/
theorem buffer_limit_behavior_witness :
    ((WebsocketBuffer.mk0 3).extendList [.text "ab", .text "c"]).2 = none ∧
    ((WebsocketBuffer.mk0 3).extendList [.text "ab", .text "c"]).1.len ≤ 3 ∧
    (WebsocketBuffer.extend ⟨some (.inl "abc"), 3⟩ (.text "d")).2 =
      some .frameTooLarge ∧
    ((WebsocketBuffer.mk0 3).extend (.binary [1, 2])).1.clear.extend
      (.text "x") = (⟨some (.inl "x"), 3⟩, none) :=
  ⟨((buffer_limit_behavior 3).1 ["ab", "c"] (by decide) 2).1,
   ((buffer_limit_behavior 3).1 ["ab", "c"] (by decide) 2).2,
   (buffer_limit_behavior 3).2.2.1 "abc" "d" (by decide),
   (buffer_limit_behavior 3).2.2.2.2.2
     ((WebsocketBuffer.mk0 3).extend (.binary [1, 2])).1 "x" rfl (by decide)⟩

/-- `partitionChars` splits exactly at the first occurrence of the
separator: the head part is the longest separator-free prefix and the
tail part is everything after that first occurrence. -/
theorem partitionChars_spec (sep : Char) : ∀ l : List Char,
    (partitionChars l sep = none →
      l.takeWhile (fun c => c ≠ sep) = l ∧
      (l.dropWhile (fun c => c ≠ sep)).drop 1 = []) ∧
    (∀ a b, partitionChars l sep = some (a, b) →
      a = l.takeWhile (fun c => c ≠ sep) ∧
      b = (l.dropWhile (fun c => c ≠ sep)).drop 1) := by
  intro l
  induction l with
  | nil =>
    refine ⟨fun _ => ⟨rfl, rfl⟩, fun a b h => ?_⟩
    cases h
  | cons c rest ih =>
    by_cases hc : c = sep
    · refine ⟨fun h => ?_, fun a b h => ?_⟩
      · rw [partitionChars, if_pos hc] at h
        cases h
      · rw [partitionChars, if_pos hc] at h
        cases h
        refine ⟨?_, ?_⟩
        · rw [List.takeWhile_cons, if_neg (by simp [hc])]
        · rw [List.dropWhile_cons, if_neg (by simp [hc])]
          rfl
    · refine ⟨fun h => ?_, fun a b h => ?_⟩
      · rw [partitionChars, if_neg hc] at h
        rcases hrec : partitionChars rest sep with _ | p
        · refine ⟨?_, ?_⟩
          · rw [List.takeWhile_cons, if_pos (by simp [hc]), (ih.1 hrec).1]
          · rw [List.dropWhile_cons, if_pos (by simp [hc])]
            exact (ih.1 hrec).2
        · rw [hrec] at h
          obtain ⟨a0, b0⟩ := p
          cases h
      · rw [partitionChars, if_neg hc] at h
        rcases hrec : partitionChars rest sep with _ | p
        · rw [hrec] at h
          cases h
        · obtain ⟨a0, b0⟩ := p
          obtain ⟨ha0, hb0⟩ := ih.2 a0 b0 hrec
          rw [hrec] at h
          injection h with h2
          injection h2 with hA hB
          subst hA
          subst hB
          refine ⟨?_, ?_⟩
          · rw [List.takeWhile_cons, if_pos (by simp [hc]), ha0]
          · rw [List.dropWhile_cons, if_pos (by simp [hc])]
            exact hb0

/-- C5 --: the scope built by `handle_websocket` has `path` equal to
the percent-decoded part of the target before the first `'?'`,
`query_string` equal to the still-encoded part after it, and a header
list whose first entry is the adapter-injected `host` header followed
by the original request headers; for the concrete Scenario A target
`/chat?x=1` with host `example.com` the path is `/chat`, the query
string is `x=1`, and the first header is `host: example.com`. -/
theorem scope_construction (ctx : Ctx) (event : Request) :
    (handleWebsocketScope ctx event).path =
      unquote (beforeFirst event.target '?') ∧
    (handleWebsocketScope ctx event).query_string =
      strBytes (afterFirst event.target '?') ∧
    (handleWebsocketScope ctx event).headers =
      (strBytes "host", strBytes event.host) :: event.extra_headers ∧
    (handleWebsocketScope ctx chatRequest).path = "/chat" ∧
    (handleWebsocketScope ctx chatRequest).query_string = strBytes "x=1" ∧
    (handleWebsocketScope ctx chatRequest).headers.head? =
      some (strBytes "host", strBytes "example.com") := by
  have hspec := partitionChars_spec '?' event.target.toList
  refine ⟨?_, ?_, rfl, rfl, rfl, rfl⟩
  · rw [handleWebsocketScope, pyPartition, beforeFirst]
    rcases hp : partitionChars event.target.toList '?' with _ | p
    · rw [(hspec.1 hp).1]
      rfl
    · obtain ⟨a, b⟩ := p
      obtain ⟨ha, hb⟩ := hspec.2 a b hp
      rw [ha]
  · rw [handleWebsocketScope, pyPartition, afterFirst]
    rcases hp : partitionChars event.target.toList '?' with _ | p
    · rw [(hspec.1 hp).2]
    · obtain ⟨a, b⟩ := p
      obtain ⟨ha, hb⟩ := hspec.2 a b hp
      rw [hb]

end Wsproto
